import Mathlib

/-!
# Verification of the quickserving-core static-file HTTP server

A shallow embedding of `src/server.rs` (the request/response cycle of a
minimal single-threaded static-file HTTP server) together with models of
the repository's value types (`Config`, `Version`, `Headers`, `Request`,
`Response`) and of the request parser, whose source files are not present
in the snapshot and are therefore modelled from the specification.

Conventions of the embedding:
* Rust `String`s are Lean `String`s; Rust byte buffers are `List Nat`
  (each entry `< 256`).
* String operations used by the code (`ends_with`, `split`,
  `trim_end_matches`, `String::len`) are given executable definitions
  over the underlying character list, so that every theorem can be
  checked on concrete inputs by kernel evaluation.
* The filesystem is a function `String → Option (List Nat)` from paths to
  raw file bytes; `fs::read_to_string` is modelled as a lookup followed by
  a strict UTF-8 decode (it fails on a missing file and on invalid UTF-8).
* Fallible Rust calls that the code `unwrap()`s are modelled by an
  explicit `panicked` outcome: a panic on the single thread terminates
  the process.
* Wall-clock time (`Utc::now().to_string()`) is passed in as an opaque
  string parameter `now`.
-/

namespace Quickserving

/-! ## Executable string primitives -/

/-- Rust `str::ends_with`: the pattern's characters are a suffix of the
string's characters (for valid UTF-8 this coincides with byte-suffix). -/
def endsWithStr (s suffix : String) : Bool :=
  suffix.data.isSuffixOf s.data

/-- Splitting worker: scan the character list, cutting at every
occurrence of the (non-empty) separator. The fuel argument makes the
recursion structural; it is instantiated with the list's length, which
suffices because each step consumes at least one character. -/
def splitOnListAux (sep : List Char) : Nat → List Char → List Char → List (List Char)
  | _, acc, [] => [acc.reverse]
  | 0, acc, l => [acc.reverse ++ l]
  | fuel+1, acc, c :: rest =>
    if sep.isPrefixOf (c :: rest) then
      acc.reverse :: splitOnListAux sep fuel [] ((c :: rest).drop sep.length)
    else
      splitOnListAux sep fuel (c :: acc) rest

/-- Rust `str::split` on a non-empty literal separator (also the spec's
"split on CRLF" / "split on single spaces" / "split on the first ..."). -/
def splitOnStr (s sep : String) : List String :=
  (splitOnListAux sep.data s.data.length [] s.data).map String.mk

/-- Join a list of strings with a separator between consecutive
elements (Rust `Vec::join`, Lean `String.intercalate`). -/
def intercalateStr (sep : String) : List String → String
  | [] => ""
  | [x] => x
  | x :: y :: xs => x ++ sep ++ intercalateStr sep (y :: xs)

/-- Concatenate a list of strings. -/
def joinStr (l : List String) : String :=
  l.foldr (fun a b => a ++ b) ""

/-- The UTF-8 encoded size of one character (1–4 bytes). -/
def charUtf8Size (c : Char) : Nat :=
  if c.toNat < 0x80 then 1
  else if c.toNat < 0x800 then 2
  else if c.toNat < 0x10000 then 3
  else 4

/-- Rust `String::len`: the length in bytes of the string's UTF-8
encoding. -/
def strByteLen (s : String) : Nat :=
  (s.data.map charUtf8Size).sum

/-! ## Strict UTF-8 decoding (the model of `fs::read_to_string`)

`fs::read_to_string` returns `Err` unless the file's bytes are valid
UTF-8. The decoder below accepts exactly the valid UTF-8 byte sequences
(rejecting overlong encodings, surrogate code points, and code points
above U+10FFFF, as Rust's `String::from_utf8` does). -/

/-- A UTF-8 continuation byte: `0x80 ≤ b ≤ 0xBF`. -/
def isCont (b : Nat) : Bool :=
  0x80 ≤ b && b ≤ 0xBF

/-- Decoding worker with structural fuel (one unit per byte consumed
suffices). Returns `none` on any invalid sequence. -/
def utf8DecodeAux : Nat → List Nat → Option (List Char)
  | _, [] => some []
  | 0, _ :: _ => none
  | fuel+1, b :: rest =>
    if b ≤ 0x7F then
      (utf8DecodeAux fuel rest).map (fun cs => Char.ofNat b :: cs)
    else if 0xC2 ≤ b && b ≤ 0xDF then
      match rest with
      | c1 :: r =>
        if isCont c1 then
          (utf8DecodeAux fuel r).map
            (fun cs => Char.ofNat ((b - 0xC0) * 0x40 + (c1 - 0x80)) :: cs)
        else none
      | [] => none
    else if 0xE0 ≤ b && b ≤ 0xEF then
      match rest with
      | c1 :: c2 :: r =>
        let lowOk : Bool :=
          if b = 0xE0 then 0xA0 ≤ c1 && c1 ≤ 0xBF
          else if b = 0xED then 0x80 ≤ c1 && c1 ≤ 0x9F
          else isCont c1
        if lowOk && isCont c2 then
          (utf8DecodeAux fuel r).map
            (fun cs =>
              Char.ofNat ((b - 0xE0) * 0x1000 + (c1 - 0x80) * 0x40 + (c2 - 0x80)) :: cs)
        else none
      | _ => none
    else if 0xF0 ≤ b && b ≤ 0xF4 then
      match rest with
      | c1 :: c2 :: c3 :: r =>
        let lowOk : Bool :=
          if b = 0xF0 then 0x90 ≤ c1 && c1 ≤ 0xBF
          else if b = 0xF4 then 0x80 ≤ c1 && c1 ≤ 0x8F
          else isCont c1
        if lowOk && isCont c2 && isCont c3 then
          (utf8DecodeAux fuel r).map
            (fun cs =>
              Char.ofNat
                ((b - 0xF0) * 0x40000 + (c1 - 0x80) * 0x1000
                  + (c2 - 0x80) * 0x40 + (c3 - 0x80)) :: cs)
        else none
      | _ => none
    else none

/-- Decode a byte list as strict UTF-8; `none` on a malformed input. -/
def decodeUtf8 (bs : List Nat) : Option String :=
  (utf8DecodeAux bs.length bs).map String.mk

/-! ## Data model -/

/-- `Config` as described in the data model: listen port, document root
directory, default index filename, and the 404-document path. -/
structure Config where
  port : Nat
  directory : String
  index_file : String
  not_found_uri : String
deriving Repr, DecidableEq

/-- An HTTP version: protocol name (e.g. "HTTP") and number (e.g. "1.1"). -/
structure Version where
  protocol : String
  number : String
deriving Repr, DecidableEq

/-- Modelled from the spec: the `Headers` type of the repository's
library crate is not under `src/`; §3 describes it as an ordered mapping
from header name to value, preserving insertion order, with keys not
required to be unique at the type level. We model it as an association
list in insertion order. -/
abbrev Headers := List (String × String)

/-- Modelled from the spec: `Headers::new()` creates the empty header
collection. -/
def Headers.new : Headers := []

/-- Modelled from the spec: `Headers::insert` appends a name/value pair,
preserving insertion order (§3). -/
def Headers.insert (hs : Headers) (name value : String) : Headers :=
  hs ++ [(name, value)]

/-- Look up the value of the first header with the given name
(used only to state theorems about constructed responses). -/
def Headers.lookup (hs : Headers) (name : String) : Option String :=
  match hs with
  | [] => none
  | (n, v) :: rest => if n = name then some v else Headers.lookup rest name

/-- A parsed HTTP request: method, path, version, headers, optional body. -/
structure Request where
  method : String
  path : String
  version : Version
  headers : Headers
  body : String
deriving Repr, DecidableEq

/-- An HTTP response: status code, reason, version, headers, body. -/
structure Response where
  status : Nat
  reason : String
  version : Version
  headers : Headers
  body : String
deriving Repr, DecidableEq

/-- Modelled from the spec: header serialization from the repository's
library crate is not under `src/`; §4.1 prescribes `Name: value\r\n`
lines in insertion order. -/
def Headers.serialize (hs : Headers) : String :=
  joinStr (hs.map (fun kv => kv.1 ++ ": " ++ kv.2 ++ "\r\n"))

/-- Modelled from the spec: `Response::to_string` from `src/response.rs`
is not under `src/`; §4.4 prescribes the serialization contract
`"<protocol>/<version> <status> <reason>\r\n" + headers + "\r\n" + body`. -/
def Response.to_string (r : Response) : String :=
  r.version.protocol ++ "/" ++ r.version.number ++ " " ++ toString r.status
    ++ " " ++ r.reason ++ "\r\n" ++ r.headers.serialize ++ "\r\n" ++ r.body

/-! ## Request parsing (modelled from the spec)

`Request::from_string` lives in `src/request.rs`, which is not in the
snapshot; the definitions below follow §4.2 of the spec word for word. -/

/-- Modelled from the spec: header-line parsing of §4.2 step 3: each
non-blank line before the blank line is split on the first `": "` into
name and value; a line with no such separator is a parse error
("malformed header"); parsing stops at the first blank line and the
remaining lines are the body. Returns the headers in order of appearance
together with the body lines. -/
def parseHeaderLines : List String → Except String (Headers × List String)
  | [] => Except.ok (Headers.new, [])
  | line :: rest =>
    if line = "" then Except.ok (Headers.new, rest)
    else
      match splitOnStr line ": " with
      | name :: v :: vs =>
        match parseHeaderLines rest with
        | Except.ok (hs, bodyLines) =>
            Except.ok ((name, intercalateStr ": " (v :: vs)) :: hs, bodyLines)
        | Except.error e => Except.error e
      | _ => Except.error "malformed header"

/-- Modelled from the spec: `Request::from_string` (§4.2). Split the
input into lines on CRLF; the first line is the request line, split on
single spaces into three tokens (method, path, version-string), fewer
than three being a parse error; the version-string is split on `/` into
protocol name and number, a malformed version being a parse error;
subsequent lines up to the first blank line are headers; everything
after the blank line is the body. -/
def Request.from_string (raw : String) : Except String Request :=
  match splitOnStr raw "\r\n" with
  | [] => Except.error "malformed request line"
  | first :: rest =>
    match splitOnStr first " " with
    | m :: p :: v :: _ =>
      match splitOnStr v "/" with
      | [pname, pnum] =>
        if pname = "" ∨ pnum = "" then Except.error "malformed version"
        else
          match parseHeaderLines rest with
          | Except.ok (hs, bodyLines) =>
              Except.ok ⟨m, p, ⟨pname, pnum⟩, hs, intercalateStr "\r\n" bodyLines⟩
          | Except.error e => Except.error e
      | _ => Except.error "malformed version"
    | _ => Except.error "malformed request line"

/-! ## Path resolution (from `src/server.rs`, lines 71–84) -/

/-- Rust's `s.trim_end_matches('/')`: remove every trailing `'/'`
character (server.rs lines 82 and 90). -/
def trimEndSlash (s : String) : String :=
  String.mk ((s.data.reverse.dropWhile (fun c => c = '/')).reverse)

/-- The default-index rewrite (server.rs lines 71–73): if the request
path ends with `/`, append `config.index_file` to it. -/
def rewritePath (cfg : Config) (p : String) : String :=
  if endsWithStr p "/" then p ++ cfg.index_file else p

/-- The resource-path concatenation (server.rs lines 80–84 and 88–92):
`format!("{}/{}", config.directory.trim_end_matches('/'), p)`. -/
def resourcePath (cfg : Config) (p : String) : String :=
  trimEndSlash cfg.directory ++ "/" ++ p

/-- The full path-resolution pipeline applied to a raw request path:
default-index rewrite, then concatenation under the document root. -/
def resolve (cfg : Config) (p : String) : String :=
  resourcePath cfg (rewritePath cfg p)

/-! ## Filesystem and MIME models -/

/-- The filesystem, an external collaborator: a map from path strings to
the raw bytes of the file stored there (`none` when no file exists). -/
def Fs : Type := String → Option (List Nat)

/-- Rust `fs::read_to_string`: fails (`none`) when the file is absent or
its bytes are not valid UTF-8; otherwise returns the decoded text. -/
def read_to_string (fs : Fs) (p : String) : Option String :=
  (fs p).bind decodeUtf8

/-- The extension of a path, following Rust's `Path::extension` as used
by the `mime_guess` crate: the part of the final `/`-separated component
after its last `.`; `none` when the component has no `.` or its only `.`
is the leading character (hidden files). -/
def extensionOf (path : String) : Option String :=
  match (splitOnStr path "/").getLast? with
  | none => none
  | some fname =>
    match splitOnStr fname "." with
    | [] => none
    | [_] => none
    | "" :: [_] => none
    | ps => ps.getLast?

/-- Model of the external `mime_guess` crate's
`from_path(path).first()`: look the path's extension up in the crate's
extension-to-MIME table, `none` when the path has no extension or the
extension is not in the table. Only a representative fragment of the
crate's table is reproduced; the theorems below rely on it only through
`some` results for well-known extensions and the `none` result for an
absent extension. -/
def mimeFirst (path : String) : Option String :=
  match extensionOf path with
  | some e =>
    if e = "html" ∨ e = "htm" then some "text/html"
    else if e = "txt" then some "text/plain"
    else if e = "css" then some "text/css"
    else if e = "js" then some "application/javascript"
    else if e = "json" then some "application/json"
    else if e = "png" then some "image/png"
    else if e = "jpg" ∨ e = "jpeg" then some "image/jpeg"
    else if e = "gif" then some "image/gif"
    else if e = "pdf" then some "application/pdf"
    else none
  | none => none

/-! ## Response construction (server.rs lines 85–155) -/

/-- The 404 branch (server.rs lines 87–120): read the configured
not-found document resolved under the document root, falling back to the
literal body `"404"`; headers `Content-Type: text/html`,
`Content-Lenght` (the code's spelling) with the body's byte length, and
`Server: Quickserving`. No `Date` header is set in this branch. -/
def notFoundResponse (cfg : Config) (fs : Fs) : Response :=
  let resource_content :=
    (read_to_string fs (resourcePath cfg cfg.not_found_uri)).getD "404"
  let resource_len := strByteLen resource_content
  let headers :=
    ((Headers.new.insert "Content-Type" "text/html").insert
        "Content-Lenght" (toString resource_len)).insert "Server" "Quickserving"
  ⟨404, "Resource not found", ⟨"HTTP", "1.1"⟩, headers, resource_content⟩

/-- The 200 branch (server.rs lines 121–154): headers `Content-Type`
(from `mime_guess::from_path(request.path).first().unwrap()` — `none`
here models the `unwrap` panic on an unknown extension),
`Content-Lenght` (the code's spelling) with the body's byte length,
`Server: Quickserving`, and `Date` (the current time). -/
def foundResponse (path content now : String) : Option Response :=
  (mimeFirst path).map (fun m =>
    let resource_len := strByteLen content
    let headers :=
      (((Headers.new.insert "Content-Type" m).insert
          "Content-Lenght" (toString resource_len)).insert
        "Server" "Quickserving").insert "Date" now
    ⟨200, "OK", ⟨"HTTP", "1.1"⟩, headers, content⟩)

/-- Branch selection (server.rs lines 85–87): read the resolved
resource; on failure build the 404 response, otherwise the 200 response.
`none` models a panic (the mime `unwrap`); `path` is the request path
after the default-index rewrite, as in the code. -/
def buildResponse (cfg : Config) (fs : Fs) (now path : String) : Option Response :=
  match read_to_string fs (resourcePath cfg path) with
  | none => some (notFoundResponse cfg fs)
  | some content => foundResponse path content now

/-! ## The connection read loop (server.rs lines 35–59) -/

/-- The fixed size of the read buffer (server.rs line 35). -/
def request_buf_size : Nat := 4096

/-- One socket read, as observed by the handler: either a chunk of data
already decoded permissively to text (`from_utf8_lossy`), where the
empty chunk stands for a zero-byte read (peer closed), or an I/O
error. -/
inductive ReadEvt where
  | chunk (s : String)
  | ioError
deriving Repr, DecidableEq

/-- The read loop (server.rs lines 41–59): read a chunk; on an I/O error
the `unwrap` panics (`none`); a zero-byte read stops the loop; otherwise
the decoded chunk is appended and the loop stops exactly when that chunk
itself ends with `"\r\n\r\n"`. Running off the end of the event list is
read as the peer having closed (all further reads return zero bytes). -/
def readLoop : List ReadEvt → Option String
  | [] => some ""
  | ReadEvt.ioError :: _ => none
  | ReadEvt.chunk s :: rest =>
    if s = "" then some ""
    else if endsWithStr s "\r\n\r\n" then some s
    else (readLoop rest).map (fun t => s ++ t)

/-! ## Connection handling (server.rs lines 33–165) -/

/-- One incoming connection, as the handler observes it: the sequence of
socket-read results, and whether the final `write_all`/`flush` fails. -/
structure Conn where
  reads : List ReadEvt
  writeFails : Bool

/-- How one invocation of `handle_connection` ends: a panic (an
`unwrap` of an `Err` — on the single thread this terminates the whole
process), an `Err` return, or an `Ok(())` return. -/
inductive HandleOutcome where
  | panicked
  | errored (msg : String)
  | completed
deriving Repr, DecidableEq

/-- The observable effect of one `handle_connection` call: the payloads
successfully written to the socket, in order, and how the call ended. -/
structure ConnResult where
  written : List String
  outcome : HandleOutcome
deriving Repr, DecidableEq

/-- `handle_connection` (server.rs lines 33–165): run the read loop
(read errors panic), parse the request (parse errors return `Err` with
nothing written), apply the default-index rewrite, build the response
(unknown-MIME `unwrap` panics), serialize and write it (write errors
panic). -/
def handle_connection (cfg : Config) (fs : Fs) (now : String) (conn : Conn) : ConnResult :=
  match readLoop conn.reads with
  | none => ⟨[], HandleOutcome.panicked⟩
  | some raw =>
    match Request.from_string raw with
    | Except.error _ =>
        ⟨[], HandleOutcome.errored "Error while parsing request. Invalid request."⟩
    | Except.ok req =>
      match buildResponse cfg fs now (rewritePath cfg req.path) with
      | none => ⟨[], HandleOutcome.panicked⟩
      | some resp =>
        if conn.writeFails then ⟨[], HandleOutcome.panicked⟩
        else ⟨[resp.to_string], HandleOutcome.completed⟩

/-! ## The listener loop (server.rs lines 8–30) -/

/-- Whether `TcpListener::bind` succeeds — an external condition. -/
inductive BindResult where
  | ok
  | failed
deriving Repr, DecidableEq

/-- The observable outcome of running the server on a finite prefix of
the connection stream: `bindError` when the bind failed (`listen`
returned `Err` before any accept), `panickedAfter` when a panic killed
the process partway (carrying the results up to and including the fatal
connection), and `running` when every given connection was processed and
the loop is still accepting. -/
inductive ListenOutcome where
  | bindError (msg : String)
  | panickedAfter (results : List ConnResult)
  | running (results : List ConnResult)
deriving Repr, DecidableEq

/-- Prepend one connection's result to a later outcome of the loop. -/
def consResult (r : ConnResult) : ListenOutcome → ListenOutcome
  | ListenOutcome.running rs => ListenOutcome.running (r :: rs)
  | ListenOutcome.panickedAfter rs => ListenOutcome.panickedAfter (r :: rs)
  | ListenOutcome.bindError m => ListenOutcome.bindError m

/-- The accept loop (server.rs lines 19–29): handle each accepted
connection in turn; an `Err` from the handler is logged and the loop
continues; a panic terminates the process. -/
def serveLoop (cfg : Config) (fs : Fs) (now : String) : List Conn → ListenOutcome
  | [] => ListenOutcome.running []
  | c :: rest =>
    let r := handle_connection cfg fs now c
    match r.outcome with
    | HandleOutcome.panicked => ListenOutcome.panickedAfter [r]
    | _ => consResult r (serveLoop cfg fs now rest)

/-- `listen` (server.rs lines 8–30): on bind failure return the error
`"this port is already in use."` before any accept; otherwise run the
accept loop over the incoming connections. -/
def listen (bind : BindResult) (cfg : Config) (fs : Fs) (now : String)
    (conns : List Conn) : ListenOutcome :=
  match bind with
  | BindResult.failed => ListenOutcome.bindError "this port is already in use."
  | BindResult.ok => serveLoop cfg fs now conns

/-- The per-connection results an outcome carries (empty when the bind
failed). -/
def resultsOf : ListenOutcome → List ConnResult
  | ListenOutcome.bindError _ => []
  | ListenOutcome.panickedAfter rs => rs
  | ListenOutcome.running rs => rs

/-! ## Concrete fixtures used by witnesses and counterexamples -/

instance exceptDecEq {e a : Type} [DecidableEq e] [DecidableEq a] :
    DecidableEq (Except e a) := fun x y =>
  match x, y with
  | Except.error u, Except.error v =>
    if h : u = v then Decidable.isTrue (h ▸ rfl)
    else Decidable.isFalse (fun c => h (Except.error.inj c))
  | Except.error _, Except.ok _ => Decidable.isFalse (fun c => Except.noConfusion c)
  | Except.ok _, Except.error _ => Decidable.isFalse (fun c => Except.noConfusion c)
  | Except.ok u, Except.ok v =>
    if h : u = v then Decidable.isTrue (h ▸ rfl)
    else Decidable.isFalse (fun c => h (Except.ok.inj c))

/-- A sample configuration: document root `root`, index `index.html`,
404 document `404.html`. -/
def cfg0 : Config := ⟨80, "root", "index.html", "404.html"⟩

/-- A filesystem with no files at all. -/
def fsEmpty : Fs := fun _ => none

/-- A filesystem holding only `root//a.txt` with content `hi`. -/
def fsTxt : Fs := fun p => if p = "root//a.txt" then some [104, 105] else none

/-- A filesystem holding only `root//file` (no extension) with valid
UTF-8 content `hi`. -/
def fsNoExt : Fs := fun p => if p = "root//file" then some [104, 105] else none

/-- A filesystem holding only `root//bad.txt`, whose single byte `0xFF`
is not valid UTF-8. -/
def fsBad : Fs := fun p => if p = "root//bad.txt" then some [255] else none

/-- A well-behaved connection: one chunk carrying a complete request for
`/a.txt`, and a working write side. -/
def connGood : Conn := ⟨[ReadEvt.chunk "GET /a.txt HTTP/1.1\r\n\r\n"], false⟩

end Quickserving

namespace Quickserving

/-- **C4** — For every request path and configuration, the resolved
filesystem path is: if the request path ends with `/`, first append
`config.index_file`; then concatenate `config.directory` with trailing
`/` stripped, a `/`, and the (possibly rewritten) request path verbatim,
with no normalization or traversal rejection. -/
theorem c4_path_resolution (cfg : Config) (p : String) :
    resolve cfg p =
      trimEndSlash cfg.directory ++ "/"
        ++ (if endsWithStr p "/" then p ++ cfg.index_file else p) := by
  unfold resolve resourcePath rewritePath
  split <;> rfl

/-- **C5** — Resolving the request path `/` under a configuration whose
index file is `index.html` and resolving `/index.html` explicitly yield
the same resource path. -/
theorem c5_index_idempotence (port : Nat) (dir nf : String) :
    resolve ⟨port, dir, "index.html", nf⟩ "/"
      = resolve ⟨port, dir, "index.html", nf⟩ "/index.html" := by
  unfold resolve resourcePath rewritePath
  have h1 : endsWithStr "/" "/" = true := by decide
  have h2 : endsWithStr "/index.html" "/" = false := by decide
  rw [h1, h2]
  rfl

/-- **C7** — When binding the listening socket fails, the server returns
the error `"this port is already in use."` before entering the accept
loop, and no connection is ever accepted or served (the outcome carries
no per-connection results). -/
theorem c7_bind_failure (cfg : Config) (fs : Fs) (now : String) (conns : List Conn) :
    listen BindResult.failed cfg fs now conns
        = ListenOutcome.bindError "this port is already in use." ∧
      resultsOf (listen BindResult.failed cfg fs now conns) = [] := by
  exact ⟨rfl, rfl⟩

/-- **C9** — For every response the server constructs (both the 200 and
the 404 branch), a `Content-Length` header value, once present, equals
the exact byte length of the response body; and the length header the
code actually writes (spelled `Content-Lenght` in the source, a spelling
the spec's §9 records) is present with exactly the body's byte length as
its value. -/
theorem c9_content_length (cfg : Config) (fs : Fs) (now path : String) (resp : Response)
    (h : buildResponse cfg fs now path = some resp) :
    (resp.headers.lookup "Content-Length" = none ∨
        resp.headers.lookup "Content-Length" = some (toString (strByteLen resp.body))) ∧
      resp.headers.lookup "Content-Lenght" = some (toString (strByteLen resp.body)) := by
  unfold buildResponse at h
  split at h
  · -- 404 branch
    injection h with h'
    subst h'
    exact ⟨Or.inl rfl, rfl⟩
  · -- 200 branch
    unfold foundResponse at h
    cases hm : mimeFirst path with
    | none => rw [hm] at h; simp at h
    | some m =>
      rw [hm] at h
      simp only [Option.map] at h
      injection h with h'
      subst h'
      exact ⟨Or.inl rfl, rfl⟩

/-- Witness for C9 at a concrete input: the 404 response built for a
missing file under an empty filesystem. -/
theorem c9_witness :
    ((notFoundResponse cfg0 fsEmpty).headers.lookup "Content-Length" = none ∨
        (notFoundResponse cfg0 fsEmpty).headers.lookup "Content-Length"
          = some (toString (strByteLen (notFoundResponse cfg0 fsEmpty).body))) ∧
      (notFoundResponse cfg0 fsEmpty).headers.lookup "Content-Lenght"
        = some (toString (strByteLen (notFoundResponse cfg0 fsEmpty).body)) :=
  c9_content_length cfg0 fsEmpty "now" "/x.html" (notFoundResponse cfg0 fsEmpty) (by decide)

/-- **C10** — For every request resolving to a file that exists but
whose contents are not valid UTF-8, the file read is treated as a
failure and the server takes the 404 branch (status 404, not 200)
instead of serving the file's bytes. -/
theorem c10_invalid_utf8 (cfg : Config) (fs : Fs) (now q : String) (bytes : List Nat)
    (hf : fs (resolve cfg q) = some bytes)
    (hd : decodeUtf8 bytes = none) :
    buildResponse cfg fs now (rewritePath cfg q) = some (notFoundResponse cfg fs) ∧
      (notFoundResponse cfg fs).status = 404 ∧
      (notFoundResponse cfg fs).status ≠ 200 := by
  have hr : read_to_string fs (resourcePath cfg (rewritePath cfg q)) = none := by
    unfold read_to_string
    have he : resourcePath cfg (rewritePath cfg q) = resolve cfg q := rfl
    rw [he, hf]
    exact hd
  refine ⟨?_, rfl, ?_⟩
  · unfold buildResponse
    rw [hr]
  · intro hc
    have h4 : (404 : Nat) = 200 := hc
    exact absurd h4 (by decide)

/-- Witness for C10 at a concrete input: `root//bad.txt` exists and
holds the single byte `0xFF`, which is not valid UTF-8. -/
theorem c10_witness :
    buildResponse cfg0 fsBad "now" (rewritePath cfg0 "/bad.txt")
        = some (notFoundResponse cfg0 fsBad) ∧
      (notFoundResponse cfg0 fsBad).status = 404 ∧
      (notFoundResponse cfg0 fsBad).status ≠ 200 :=
  c10_invalid_utf8 cfg0 fsBad "now" "/bad.txt" [255] (by decide) (by decide)

/-- **C3 counterexample** — the fallback body `"404"` has 3 characters,
not 4: the claim's "literal 4-character body" is false of the code
(Scenario C's byte count of 3 is what holds). -/
theorem c3_counterexample :
    (notFoundResponse cfg0 fsEmpty).body = "404" ∧
      strByteLen (notFoundResponse cfg0 fsEmpty).body = 3 ∧
      ¬ strByteLen (notFoundResponse cfg0 fsEmpty).body = 4 ∧
      ¬ (notFoundResponse cfg0 fsEmpty).body.length = 4 := by
  refine ⟨by decide, by decide, by decide, by decide⟩

/-- **C3 (amended)** — When the requested file is absent and reading the
configured not-found document also fails, the 404 response's body is the
literal 3-character body `"404"`, with byte length 3 and the length
header (spelled `Content-Lenght` in the code) valued `"3"`. -/
theorem c3_fallback_404 (cfg : Config) (fs : Fs) (now p : String)
    (h1 : read_to_string fs (resourcePath cfg p) = none)
    (h2 : read_to_string fs (resourcePath cfg cfg.not_found_uri) = none) :
    buildResponse cfg fs now p = some (notFoundResponse cfg fs) ∧
      (notFoundResponse cfg fs).body = "404" ∧
      strByteLen (notFoundResponse cfg fs).body = 3 ∧
      (notFoundResponse cfg fs).headers.lookup "Content-Lenght" = some "3" ∧
      (notFoundResponse cfg fs).status = 404 := by
  have hb : notFoundResponse cfg fs =
      ⟨404, "Resource not found", ⟨"HTTP", "1.1"⟩,
        ((Headers.new.insert "Content-Type" "text/html").insert
            "Content-Lenght" (toString (strByteLen "404"))).insert "Server" "Quickserving",
        "404"⟩ := by
    unfold notFoundResponse
    rw [h2]
    rfl
  refine ⟨?_, ?_, ?_, ?_, ?_⟩
  · unfold buildResponse
    rw [h1]
  · rw [hb]
  · rw [hb]; decide
  · rw [hb]; decide
  · rw [hb]

/-- The chunks the spec's reading rule consumes: every chunk up to and
including the first that ends with `"\r\n\r\n"`, stopping (exclusively)
at a zero-byte read. Stated from the spec's sentence, to be compared
with the code's `readLoop`. -/
def readStopPrefix : List String → List String
  | [] => []
  | c :: rest =>
    if c = "" then []
    else if endsWithStr c "\r\n\r\n" then [c]
    else c :: readStopPrefix rest

/-- **C8** — The connection read loop uses a fixed 4096-byte buffer and,
over any sequence of successfully read chunks, accumulates exactly the
chunks up to the first zero-byte read or the first chunk ending with
`"\r\n\r\n"`; the final conjunct shows on a concrete trace that a
terminator split across a chunk boundary is not detected (the loop keeps
consuming chunks even though the accumulated buffer already contains
`"\r\n\r\n"`). -/
theorem c8_read_loop_framing :
    request_buf_size = 4096 ∧
      (∀ cs : List String,
        readLoop (cs.map ReadEvt.chunk) = some (joinStr (readStopPrefix cs))) ∧
      readLoop [ReadEvt.chunk "a\r\n\r", ReadEvt.chunk "\nb", ReadEvt.chunk "Q\r\n\r\n"]
        = some ("a\r\n\r" ++ ("\nb" ++ "Q\r\n\r\n")) := by
  refine ⟨rfl, ?_, by decide⟩
  intro cs
  induction cs with
  | nil => rfl
  | cons c rest ih =>
    unfold readLoop readStopPrefix
    by_cases h0 : c = ""
    · simp [h0, joinStr]
    · by_cases h1 : endsWithStr c "\r\n\r\n" = true
      · simp [h0, h1, joinStr, String.append_empty]
      · simp [h0, h1, ih, joinStr]

/-- **C6** — For every connection whose request fails to parse, no
response bytes are written (the handler returns `Err` with an empty
write list, closing the connection), and the server remains available:
the accept loop processes the remaining connections exactly as it would
have. -/
theorem c6_parse_failure (cfg : Config) (fs : Fs) (now : String) (c : Conn)
    (rest : List Conn) (raw e : String)
    (h1 : readLoop c.reads = some raw)
    (h2 : Request.from_string raw = Except.error e) :
    handle_connection cfg fs now c
        = ⟨[], HandleOutcome.errored "Error while parsing request. Invalid request."⟩ ∧
      listen BindResult.ok cfg fs now (c :: rest)
        = consResult ⟨[], HandleOutcome.errored "Error while parsing request. Invalid request."⟩
            (serveLoop cfg fs now rest) := by
  have hh : handle_connection cfg fs now c
      = ⟨[], HandleOutcome.errored "Error while parsing request. Invalid request."⟩ := by
    unfold handle_connection
    rw [h1]
    simp only [h2]
  refine ⟨hh, ?_⟩
  show serveLoop cfg fs now (c :: rest) = _
  conv_lhs => rw [serveLoop]
  rw [hh]

/-- Witness for C6 at a concrete input: a request line with only two
tokens (missing version, Scenario D), followed by a well-behaved
connection that the loop goes on to serve. -/
theorem c6_witness :
    handle_connection cfg0 fsTxt "now" ⟨[ReadEvt.chunk "GET /\r\n\r\n"], false⟩
        = ⟨[], HandleOutcome.errored "Error while parsing request. Invalid request."⟩ ∧
      listen BindResult.ok cfg0 fsTxt "now" (⟨[ReadEvt.chunk "GET /\r\n\r\n"], false⟩ :: [connGood])
        = consResult ⟨[], HandleOutcome.errored "Error while parsing request. Invalid request."⟩
            (serveLoop cfg0 fsTxt "now" [connGood]) :=
  c6_parse_failure cfg0 fsTxt "now" ⟨[ReadEvt.chunk "GET /\r\n\r\n"], false⟩ [connGood]
    "GET /\r\n\r\n" "malformed request line" (by decide) (by decide)

/-- **C2 counterexample** — for the extensionless path `/file`, whose
file exists with valid UTF-8 content, the MIME guess is `none` and the
code's `unwrap` panics: no response is produced at all, refuting the
claimed default to a generic binary/octet type. -/
theorem c2_counterexample :
    mimeFirst "/file" = none ∧
      read_to_string fsNoExt (resourcePath cfg0 "/file") = some "hi" ∧
      buildResponse cfg0 fsNoExt "now" "/file" = none ∧
      handle_connection cfg0 fsNoExt "now" ⟨[ReadEvt.chunk "GET /file HTTP/1.1\r\n\r\n"], false⟩
        = ⟨[], HandleOutcome.panicked⟩ := by
  exact ⟨by decide, by decide, by decide, by decide⟩

/-- **C2 (amended)** — In the found branch, the `Content-Type` header
value is the MIME type inferred from the (rewritten) request path's
extension when one is known (and the status is 200); for a request path
whose extension yields no known MIME type the handler panics on the
`unwrap` and no response is produced. -/
theorem c2_mime_unwrap (cfg : Config) (fs : Fs) (now p content : String)
    (hc : read_to_string fs (resourcePath cfg p) = some content) :
    buildResponse cfg fs now p = foundResponse p content now ∧
      ((mimeFirst p).isNone = true → buildResponse cfg fs now p = none) ∧
      ((mimeFirst p).isSome = true →
        (buildResponse cfg fs now p).bind (fun r => r.headers.lookup "Content-Type")
            = mimeFirst p ∧
          (buildResponse cfg fs now p).map Response.status = some 200) := by
  have hb : buildResponse cfg fs now p = foundResponse p content now := by
    unfold buildResponse
    rw [hc]
  refine ⟨hb, ?_, ?_⟩
  · intro hn
    rw [hb]
    unfold foundResponse
    cases hm : mimeFirst p with
    | none => rfl
    | some m => rw [hm] at hn; simp at hn
  · intro hs
    rw [hb]
    unfold foundResponse
    cases hm : mimeFirst p with
    | none => rw [hm] at hs; simp at hs
    | some m => exact ⟨rfl, rfl⟩

/-- Witness for the amended C2 at a concrete input: `/a.txt` exists with
content `hi` and a known extension. -/
theorem c2_witness :
    buildResponse cfg0 fsTxt "now" "/a.txt" = foundResponse "/a.txt" "hi" "now" ∧
      ((mimeFirst "/a.txt").isNone = true → buildResponse cfg0 fsTxt "now" "/a.txt" = none) ∧
      ((mimeFirst "/a.txt").isSome = true →
        (buildResponse cfg0 fsTxt "now" "/a.txt").bind (fun r => r.headers.lookup "Content-Type")
            = mimeFirst "/a.txt" ∧
          (buildResponse cfg0 fsTxt "now" "/a.txt").map Response.status = some 200) :=
  c2_mime_unwrap cfg0 fsTxt "now" "/a.txt" "hi" (by decide)

/-- **C1 counterexample** — a connection whose socket read fails makes
the handler panic, which on the single thread terminates the process:
the following well-behaved connection (which on its own would have been
served to completion) is never accepted, refuting "only that one
connection is abandoned and the server continues". -/
theorem c1_counterexample :
    listen BindResult.ok cfg0 fsTxt "now" [⟨[ReadEvt.ioError], false⟩, connGood]
        = ListenOutcome.panickedAfter [⟨[], HandleOutcome.panicked⟩] ∧
      (resultsOf (listen BindResult.ok cfg0 fsTxt "now"
          [⟨[ReadEvt.ioError], false⟩, connGood])).length = 1 ∧
      (handle_connection cfg0 fsTxt "now" connGood).outcome = HandleOutcome.completed := by
  exact ⟨by decide, by decide, by decide⟩

/-- **C1 (amended)** — A socket read failure, and likewise a socket
write failure, makes `handle_connection` panic with nothing written;
the panic terminates the single-threaded process, so the failing
connection is abandoned and no subsequent connection is accepted
(whereas parse failures, by C6, are connection-fatal and
server-surviving). -/
theorem c1_io_failure_panics (cfg : Config) (fs : Fs) (now : String)
    (c c' : Conn) (rest rest' : List Conn) (raw : String) (req : Request) (resp : Response)
    (h1 : readLoop c.reads = none)
    (h2 : c'.writeFails = true)
    (h3 : readLoop c'.reads = some raw)
    (h4 : Request.from_string raw = Except.ok req)
    (h5 : buildResponse cfg fs now (rewritePath cfg req.path) = some resp) :
    handle_connection cfg fs now c = ⟨[], HandleOutcome.panicked⟩ ∧
      listen BindResult.ok cfg fs now (c :: rest)
        = ListenOutcome.panickedAfter [⟨[], HandleOutcome.panicked⟩] ∧
      handle_connection cfg fs now c' = ⟨[], HandleOutcome.panicked⟩ ∧
      listen BindResult.ok cfg fs now (c' :: rest')
        = ListenOutcome.panickedAfter [⟨[], HandleOutcome.panicked⟩] := by
  have hc : handle_connection cfg fs now c = ⟨[], HandleOutcome.panicked⟩ := by
    unfold handle_connection
    rw [h1]
  have hc' : handle_connection cfg fs now c' = ⟨[], HandleOutcome.panicked⟩ := by
    unfold handle_connection
    rw [h3]
    simp only [h4, h5, h2]
    rfl
  refine ⟨hc, ?_, hc', ?_⟩
  · show serveLoop cfg fs now (c :: rest) = _
    conv_lhs => rw [serveLoop]
    rw [hc]
  · show serveLoop cfg fs now (c' :: rest') = _
    conv_lhs => rw [serveLoop]
    rw [hc']

/-- Witness for the amended C1 at concrete inputs: one connection whose
read errors, and one that sends a complete valid request for an
existing file but whose write side fails. -/
theorem c1_witness :
    handle_connection cfg0 fsTxt "now" ⟨[ReadEvt.ioError], false⟩
        = ⟨[], HandleOutcome.panicked⟩ ∧
      listen BindResult.ok cfg0 fsTxt "now" (⟨[ReadEvt.ioError], false⟩ :: [connGood])
        = ListenOutcome.panickedAfter [⟨[], HandleOutcome.panicked⟩] ∧
      handle_connection cfg0 fsTxt "now" ⟨[ReadEvt.chunk "GET /a.txt HTTP/1.1\r\n\r\n"], true⟩
        = ⟨[], HandleOutcome.panicked⟩ ∧
      listen BindResult.ok cfg0 fsTxt "now"
          (⟨[ReadEvt.chunk "GET /a.txt HTTP/1.1\r\n\r\n"], true⟩ :: [connGood])
        = ListenOutcome.panickedAfter [⟨[], HandleOutcome.panicked⟩] :=
  c1_io_failure_panics cfg0 fsTxt "now"
    ⟨[ReadEvt.ioError], false⟩ ⟨[ReadEvt.chunk "GET /a.txt HTTP/1.1\r\n\r\n"], true⟩
    [connGood] [connGood] "GET /a.txt HTTP/1.1\r\n\r\n"
    ⟨"GET", "/a.txt", ⟨"HTTP", "1.1"⟩, [], ""⟩
    ⟨200, "OK", ⟨"HTTP", "1.1"⟩,
      [("Content-Type", "text/plain"), ("Content-Lenght", "2"),
        ("Server", "Quickserving"), ("Date", "now")], "hi"⟩
    (by decide) rfl (by decide) (by decide) (by decide)

/-- Witness for the amended C3 at a concrete input: under the empty
filesystem neither the requested file nor `404.html` exists. -/
theorem c3_witness :
    buildResponse cfg0 fsEmpty "now" "/x.html" = some (notFoundResponse cfg0 fsEmpty) ∧
      (notFoundResponse cfg0 fsEmpty).body = "404" ∧
      strByteLen (notFoundResponse cfg0 fsEmpty).body = 3 ∧
      (notFoundResponse cfg0 fsEmpty).headers.lookup "Content-Lenght" = some "3" ∧
      (notFoundResponse cfg0 fsEmpty).status = 404 :=
  c3_fallback_404 cfg0 fsEmpty "now" "/x.html" (by decide) (by decide)

end Quickserving
